import Mathlib

/-!
# Verification of the classic-games repository (snake, flappy bird, grid)

This file gives a shallow embedding, in Lean 4, of the game-logic functions of
the repository (src/snake.py, src/flappy_bird.py, src/grid.py) and proves or
refutes the specification claims about them.

Conventions of the embedding:
* Python ints are `Int` (grid cells, pixel coordinates); Python floats that
  only ever hold exact fractions (gap sizes, multipliers) are `ℚ`.
* Python `int(x)` (truncation toward zero) is `pyInt`.
* The rejection-sampling loops over `random.choice` are modelled by passing
  the stream of random draws explicitly as a list of candidates; `none` marks
  the case in which the modelled draws are exhausted (the Python loop would
  still be spinning).
* Raised exceptions (`GameOver`, `ValueError`) are modelled with `Option` /
  explicit flags.
* `shapely` rectangle `Polygon.intersects` is embedded by its documented
  semantics on closed axis-aligned rectangles: the closed point sets meet,
  i.e. interval overlap (allowing edge contact) on both axes.
-/

/-! ## Snake (src/snake.py) -/

/-- A grid cell, a Python `(col, row)` tuple of ints. -/
abbrev Cell := Int × Int

/-- `GRID_SIZE = 20` from src/snake.py. -/
def GRID_SIZE : Int := 20

/-- The four arrow-key directions (`pygame.K_DOWN` etc.). -/
inductive Dir where
  | up
  | down
  | left
  | right
deriving DecidableEq, Repr

/-- A pygame key code: either one of the four arrow keys or any other key
(`direction not in check_dict.keys()` in `Snake.set_direction`). -/
inductive Key where
  | arrow (d : Dir)
  | other
deriving DecidableEq, Repr

/-- The `check_dict` of `Snake.set_direction`: direction deltas as vectors. -/
def delta : Dir → Cell
  | Dir.down => (0, 1)
  | Dir.up => (0, -1)
  | Dir.left => (-1, 0)
  | Dir.right => (1, 0)

/-- Componentwise addition of cells (the `np.array` addition in
`Snake.set_direction`). -/
def addC (a b : Cell) : Cell := (a.1 + b.1, a.2 + b.2)

/-- The `lookup` dict of `Snake.update_location`: the candidate new head for
each direction. -/
def lookup (head : Cell) : Dir → Cell
  | Dir.down => (head.1, head.2 + 1)
  | Dir.up => (head.1, head.2 - 1)
  | Dir.left => (head.1 - 1, head.2)
  | Dir.right => (head.1 + 1, head.2)

/-- First wrap step of `Snake.update_location`:
`i if i < GRID_SIZE else 0`. -/
def wrap_high (i : Int) : Int := if i < GRID_SIZE then i else 0

/-- Second wrap step of `Snake.update_location`:
`i if i >= 0 else GRID_SIZE-1`. -/
def wrap_low (i : Int) : Int := if 0 ≤ i then i else GRID_SIZE - 1

/-- The new head computed by `Snake.update_location` (lines 135–147): apply
the direction delta, then the two wrap comprehensions componentwise. -/
def new_head_of (head : Cell) (d : Dir) : Cell :=
  let nh := lookup head d
  let nh2 : Cell := (wrap_high nh.1, wrap_high nh.2)
  (wrap_low nh2.1, wrap_low nh2.2)

/-- `Food.set_location`: rejection sampling — keep drawing until the draw is
not in `body`.  `cands` is the stream of random draws; the result is the
first draw outside `body` (`none` if the modelled draws are exhausted). -/
def set_location (cands : List Cell) (body : List Cell) : Option Cell :=
  cands.find? (fun c => decide (c ∉ body))

/-- `Snake.set_direction`: other keys are ignored; for an arrow key, if the
body has length > 1 and the head moved by the requested delta equals the
second body segment, the stored direction is kept; otherwise it becomes the
requested one. -/
def set_direction (body : List Cell) (cur : Dir) (k : Key) : Dir :=
  match k with
  | Key.other => cur
  | Key.arrow d =>
    if 1 < body.length then
      if body.getD 1 default = addC body.headI (delta d) then cur else d
    else d

/-- Result of one `Snake.update_location` call: the body and food after the
in-place mutations, and whether `GameOver` was raised.  `food = none` marks a
food-relocation loop that exhausted the modelled random draws. -/
structure SnakeTick where
  body : List Cell
  food : Option Cell
  gameOver : Bool
deriving DecidableEq, Repr

/-- `Snake.update_location` (together with the `Food` it mutates): push the
wrapped new head, relocate the food (no tail pop) if the head landed on it,
otherwise pop the tail; `GameOver` is raised iff the new head appears in
`body[1:]` of the resulting body. -/
def update_location (cands : List Cell) (body : List Cell) (d : Dir)
    (food : Cell) : SnakeTick :=
  let new_head := new_head_of body.headI d
  let body1 := new_head :: body
  let body2 := if new_head = food then body1 else body1.dropLast
  let food1 : Option Cell :=
    if new_head = food then set_location cands body1 else some food
  { body := body2, food := food1,
    gameOver := decide (new_head ∈ body2.drop 1) }

/-- The state of the snake `Game` (src/snake.py, class `Game`). -/
structure SnakeGame where
  body : List Cell
  direction : Dir
  food : Cell
  score : Int
  high_score : Int
  game_over : Bool
deriving DecidableEq, Repr

/-- `Game.__init__` (snake): fresh snake of length 1 at a random cell with
direction UP (`set_direction(pygame.K_UP)` on a length-1 body stores UP), a
food drawn avoiding only the placeholder body `[(0, 0)]`
(`Food.__init__` calls `self.set_location([(0, 0)])`), score and high score 0,
terminal flag clear. -/
def SnakeGame.init (snakeCell : Cell) (foodCands : List Cell) :
    Option SnakeGame :=
  (set_location foodCands [((0 : Int), (0 : Int))]).map
    (fun f =>
      { body := [snakeCell], direction := Dir.up, food := f,
        score := 0, high_score := 0, game_over := false })

/-- `Game.restart` (snake): fresh snake and food as at construction, score 0,
terminal flag cleared; all other fields (in particular `high_score`) kept. -/
def SnakeGame.restart (snakeCell : Cell) (foodCands : List Cell)
    (g : SnakeGame) : Option SnakeGame :=
  (set_location foodCands [((0 : Int), (0 : Int))]).map
    (fun f =>
      { g with body := [snakeCell], direction := Dir.up, food := f,
               score := 0, game_over := false })

/-- `Game.update` (snake): run `Snake.update_location`; the body/food
mutations persist in either case; on `GameOver` only the terminal flag is
set, otherwise `score = len(body) - 1` and
`high_score = max(score, high_score)`. -/
def SnakeGame.update (cands : List Cell) (g : SnakeGame) : Option SnakeGame :=
  let r := update_location cands g.body g.direction g.food
  r.food.map (fun f =>
    if r.gameOver then
      { g with body := r.body, food := f, game_over := true }
    else
      { g with body := r.body, food := f,
               score := (r.body.length : Int) - 1,
               high_score := max ((r.body.length : Int) - 1) g.high_score })

/-! ## Grid (src/grid.py) -/

/-- The `Grid` of src/grid.py after successful construction. -/
structure Grid where
  block_size : ℕ
  game_width : ℕ
  game_height : ℕ
  grid_width : ℕ
  grid_height : ℕ
deriving DecidableEq, Repr

/-- `Grid.__init__`: raises `ValueError` — modelled as `none` — iff
`(width % block_size) + (height % block_size) != 0`; otherwise stores the
dimensions and the number of blocks per axis
(`int(width/block_size)`, `int(height/block_size)`). -/
def Grid.init (width height block_size : ℕ) : Option Grid :=
  if width % block_size + height % block_size ≠ 0 then none
  else
    some { block_size := block_size, game_width := width,
           game_height := height, grid_width := width / block_size,
           grid_height := height / block_size }

/-- The `width_vector` of `Grid._set_grid`:
`[self.block_size * i for i in range(self.width)]`. -/
def Grid.width_vector (g : Grid) : List ℕ :=
  (List.range g.grid_width).map (fun i => g.block_size * i)

/-- The `height_vector` of `Grid._set_grid`:
`[self.block_size * i for i in range(self.height)]`. -/
def Grid.height_vector (g : Grid) : List ℕ :=
  (List.range g.grid_height).map (fun i => g.block_size * i)

/-- `Grid.__getitem__`: `self._grid[col, row]`.  In `_set_grid`,
`np.meshgrid(width_vector, height_vector)` gives `X[r][c] = width_vector[c]`
and `Y[r][c] = height_vector[r]`; stacking to shape `(2, rows, cols)` and
transposing to `(cols, rows, 2)` gives
`grid[c, r] = (width_vector[c], height_vector[r])`. -/
def Grid.getitem (g : Grid) (c r : ℕ) : ℕ × ℕ :=
  (g.width_vector.getD c 0, g.height_vector.getD r 0)

/-! ## Flappy bird (src/flappy_bird.py) -/

/-- `GAME_WIDTH = 800`. -/
def GAME_WIDTH : Int := 800

/-- `GAME_HEIGHT = 500`. -/
def GAME_HEIGHT : Int := 500

/-- `BLOCK_WIDTH = 50`. -/
def BLOCK_WIDTH : Int := 50

/-- `BLOCK_STARTING_SPEED = 5`. -/
def BLOCK_STARTING_SPEED : Int := 5

/-- `BLOCK_MAX_SPEED = 17`. -/
def BLOCK_MAX_SPEED : Int := 17

/-- `BLOCK_SPEED_INCREMENT = 3` (divisor of the score in the speed step). -/
def BLOCK_SPEED_INCREMENT : ℕ := 3

/-- `BIRD_V_SPEED = 5`. -/
def BIRD_V_SPEED : Int := 5

/-- `GAP_START_MULTIPLIER = 6.0`. -/
def GAP_START_MULTIPLIER : ℚ := 6

/-- `GAP_MIN_MULTIPLIER = 2.5`. -/
def GAP_MIN_MULTIPLIER : ℚ := 5 / 2

/-- `GAP_DECREASE_DENOMINATOR = 10.0`. -/
def GAP_DECREASE_DENOMINATOR : ℚ := 10

/-- Python `int(x)`: truncation toward zero of an exact fraction. -/
def pyInt (q : ℚ) : Int := q.num.tdiv (q.den : Int)

/-- `int()` of an exact integer is that integer. -/
theorem pyInt_intCast (n : Int) : pyInt ((n : ℚ)) = n := by
  simp [pyInt, Rat.num_intCast, Rat.den_intCast]

/-- The `Bird`: width and height come from the sprite (`assets/flap.png`,
external to the sources, so they are parameters of the model);
`x = int(0.2 * GAME_WIDTH) = 160` never changes, `y = int(0.4 * GAME_HEIGHT)
= 200` initially. -/
structure Bird where
  width : Int
  height : Int
  x : Int
  y : Int
deriving DecidableEq, Repr

/-- `Bird.__init__` for a sprite of size `w × h`. -/
def Bird.init (w h : Int) : Bird :=
  { width := w, height := h, x := 160, y := 200 }

/-- `Bird.move_down`: `self.y += BIRD_V_SPEED`. -/
def Bird.move_down (b : Bird) : Bird := { b with y := b.y + BIRD_V_SPEED }

/-- `Bird.move_up`: `self.y -= BIRD_V_SPEED`. -/
def Bird.move_up (b : Bird) : Bird := { b with y := b.y - BIRD_V_SPEED }

/-- The `Blocks` pipe pair.  `y0 = 0`, `y2 = GAME_HEIGHT` and
`width = BLOCK_WIDTH` are set in `__init__` and never reassigned, so they are
kept as the constants they are. -/
structure Blocks where
  bird_height : Int
  x : Int
  y1 : Int
  speed : Int
  gap_size : ℚ
deriving DecidableEq, Repr

/-- `Blocks.__init__`: `x = GAME_WIDTH`,
`y1 = int(GAME_HEIGHT/2 - bird_height/2)`, `_speed = 0`,
`_gap_size = GAME_HEIGHT/2`. -/
def Blocks.init (bird_height : Int) : Blocks :=
  { bird_height := bird_height, x := GAME_WIDTH,
    y1 := pyInt ((GAME_HEIGHT : ℚ) / 2 - (bird_height : ℚ) / 2),
    speed := 0, gap_size := (GAME_HEIGHT : ℚ) / 2 }

/-- `Blocks.set_speed_and_size`: if the stored speed is still `≤`
`BLOCK_MAX_SPEED`, overwrite it with
`starting_speed + score // BLOCK_SPEED_INCREMENT` (unclamped); if the stored
gap is still `≥ bird_height * GAP_MIN_MULTIPLIER`, overwrite it with
`int(bird_height * (GAP_START_MULTIPLIER - score/GAP_DECREASE_DENOMINATOR))`
(unclamped). -/
def Blocks.set_speed_and_size (b : Blocks) (score : ℕ) : Blocks :=
  let speed1 :=
    if b.speed ≤ BLOCK_MAX_SPEED then
      BLOCK_STARTING_SPEED + ((score / BLOCK_SPEED_INCREMENT : ℕ) : Int)
    else b.speed
  let gap1 :=
    if b.gap_size ≥ (b.bird_height : ℚ) * GAP_MIN_MULTIPLIER then
      ((pyInt ((b.bird_height : ℚ) *
          (GAP_START_MULTIPLIER - (score : ℚ) / GAP_DECREASE_DENOMINATOR)) : Int) : ℚ)
    else b.gap_size
  { b with speed := speed1, gap_size := gap1 }

/-- A closed axis-aligned rectangle in pixel space, the special case of
`shapely.geometry.Polygon` that every `get_polygon` in the source builds:
corners `(x0, y0), (x0, y1), (x1, y1), (x1, y0)`. -/
structure Rect where
  x0 : ℚ
  y0 : ℚ
  x1 : ℚ
  y1 : ℚ
deriving DecidableEq, Repr

/-- `shapely` `Polygon.intersects` on two closed axis-aligned rectangles:
true iff the closed point sets share at least one point, i.e. the closed
intervals overlap on both axes (edge contact counts). -/
def rectIntersects (a b : Rect) : Bool :=
  decide (a.x0 ≤ b.x1) && decide (b.x0 ≤ a.x1) &&
  decide (a.y0 ≤ b.y1) && decide (b.y0 ≤ a.y1)

/-- Modelled from the spec's words (for comparison with the code): rectangle
`a` lies fully inside rectangle `b`. -/
def specFullyInside (a b : Rect) : Prop :=
  b.x0 ≤ a.x0 ∧ a.x1 ≤ b.x1 ∧ b.y0 ≤ a.y0 ∧ a.y1 ≤ b.y1

instance (a b : Rect) : Decidable (specFullyInside a b) := by
  unfold specFullyInside
  infer_instance

/-- `Bird.get_polygon`: the rectangle from `(x, y)` to
`(x + width, y + height)`. -/
def Bird.get_polygon (b : Bird) : Rect :=
  { x0 := (b.x : ℚ), y0 := (b.y : ℚ),
    x1 := ((b.x + b.width : Int) : ℚ), y1 := ((b.y + b.height : Int) : ℚ) }

/-- First component of `Blocks.get_polygon`: the bottom block, from
`(x, y0 = 0)` to `(x + width, y1)`. -/
def Blocks.get_polygon_bottom (b : Blocks) : Rect :=
  { x0 := (b.x : ℚ), y0 := 0,
    x1 := ((b.x + BLOCK_WIDTH : Int) : ℚ), y1 := (b.y1 : ℚ) }

/-- Second component of `Blocks.get_polygon`: the top block, from
`(x, y1 + gap_size)` to `(x + width, y2 = GAME_HEIGHT)`. -/
def Blocks.get_polygon_top (b : Blocks) : Rect :=
  { x0 := (b.x : ℚ), y0 := (b.y1 : ℚ) + b.gap_size,
    x1 := ((b.x + BLOCK_WIDTH : Int) : ℚ), y1 := (GAME_HEIGHT : ℚ) }

/-- `Game.get_polygon` (flappy): the playfield rectangle
`[0, GAME_WIDTH] × [0, GAME_HEIGHT]`. -/
def game_polygon : Rect :=
  { x0 := 0, y0 := 0, x1 := (GAME_WIDTH : ℚ), y1 := (GAME_HEIGHT : ℚ) }

/-- The state of the flappy `Game` (src/flappy_bird.py, class `Game`). -/
structure FlappyGame where
  bird : Bird
  blocks : Blocks
  score : ℕ
  high_score : ℕ
  game_over : Bool
deriving DecidableEq, Repr

/-- `Game.detect_collision` (flappy): set the terminal flag iff the bird
polygon does not intersect the playfield polygon, or intersects the bottom
block polygon, or intersects the top block polygon. -/
def FlappyGame.detect_collision (g : FlappyGame) : FlappyGame :=
  if (!(rectIntersects g.bird.get_polygon game_polygon)) ||
     rectIntersects g.bird.get_polygon g.blocks.get_polygon_bottom ||
     rectIntersects g.bird.get_polygon g.blocks.get_polygon_top then
    { g with game_over := true }
  else g

/-- `Game.update_score` (flappy): increment the score when the bird just
passed the block (`block_x <= bird_x < block_x + speed` with
`block_x = blocks.x + blocks.width`), then
`high_score = max(high_score, score)`. -/
def FlappyGame.update_score (g : FlappyGame) : FlappyGame :=
  let g1 :=
    if g.blocks.x + BLOCK_WIDTH ≤ g.bird.x ∧
       g.bird.x < g.blocks.x + BLOCK_WIDTH + g.blocks.speed then
      { g with score := g.score + 1 }
    else g
  { g1 with high_score := max g1.high_score g1.score }

/-- `Game.restart` (flappy): fresh bird and blocks (the sprite size `w × h`
is unchanged across the run), score 0, terminal flag cleared; `high_score`
kept. -/
def FlappyGame.restart (w h : Int) (g : FlappyGame) : FlappyGame :=
  { g with bird := Bird.init w h, blocks := Blocks.init h,
           score := 0, game_over := false }

/-! ## Claims -/

/-- C9: for every positive width, height and block_size, `Grid.__init__`
raises a configuration error iff width or height is not evenly divisible by
block_size; with exact divisibility construction succeeds. -/
theorem grid_init_validation (w h bs : ℕ) (hw : 0 < w) (hh : 0 < h)
    (hbs : 0 < bs) :
    (Grid.init w h bs = none ↔ ¬ (bs ∣ w ∧ bs ∣ h)) ∧
    ((Grid.init w h bs).isSome = true ↔ (bs ∣ w ∧ bs ∣ h)) := by
  have hdw : bs ∣ w ↔ w % bs = 0 := Nat.dvd_iff_mod_eq_zero
  have hdh : bs ∣ h ↔ h % bs = 0 := Nat.dvd_iff_mod_eq_zero
  unfold Grid.init
  constructor <;> split <;>
    simp_all <;> omega

/-- Witness for `grid_init_validation` at `(600, 400, 20)`. -/
theorem grid_init_validation_witness :
    (Grid.init 600 400 20 = none ↔ ¬ ((20 : ℕ) ∣ 600 ∧ (20 : ℕ) ∣ 400)) ∧
    ((Grid.init 600 400 20).isSome = true ↔ ((20 : ℕ) ∣ 600 ∧ (20 : ℕ) ∣ 400)) :=
  grid_init_validation 600 400 20 (by decide) (by decide) (by decide)

/-- C10: for every grid built from exactly divisible dimensions and every
in-range cell `(c, r)`, `Grid.__getitem__` returns exactly
`(c * block_size, r * block_size)`. -/
theorem grid_cell_to_pixel (w h bs : ℕ) (g : Grid) (c r : ℕ)
    (hg : Grid.init w h bs = some g) (hc : c < w / bs) (hr : r < h / bs) :
    g.getitem c r = (c * bs, r * bs) := by
  unfold Grid.init at hg
  split at hg
  · exact absurd hg (by simp)
  · injection hg with hg
    subst hg
    unfold Grid.getitem Grid.width_vector Grid.height_vector
    simp [List.getElem?_map, List.getElem?_range, hc, hr, Nat.mul_comm]

/-- Witness for `grid_cell_to_pixel`: the 600×400 grid with block size 20
maps cell `(3, 2)` to pixel `(60, 40)`. -/
theorem grid_cell_to_pixel_witness :
    Grid.getitem
      { block_size := 20, game_width := 600, game_height := 400,
        grid_width := 30, grid_height := 20 } 3 2 = (3 * 20, 2 * 20) :=
  grid_cell_to_pixel 600 400 20 _ 3 2 (by decide) (by decide) (by decide)

/-- C7: for every head cell within the grid and every direction, the new
head of `Snake.update_location` applies the direction delta and wraps each
axis independently (below 0 ↦ `GRID_SIZE - 1`, at or beyond `GRID_SIZE` ↦ 0,
other coordinate unchanged); in particular UP from row 0 lands in row
`GRID_SIZE - 1` of the same column and RIGHT from the last column lands in
column 0. -/
theorem snake_wraparound (c r : Int) (d : Dir) (h1 : 0 ≤ c)
    (h2 : c < GRID_SIZE) (h3 : 0 ≤ r) (h4 : r < GRID_SIZE) :
    (new_head_of (c, r) d =
      ((if (lookup (c, r) d).1 < 0 then GRID_SIZE - 1
        else if GRID_SIZE ≤ (lookup (c, r) d).1 then 0
        else (lookup (c, r) d).1),
       (if (lookup (c, r) d).2 < 0 then GRID_SIZE - 1
        else if GRID_SIZE ≤ (lookup (c, r) d).2 then 0
        else (lookup (c, r) d).2))) ∧
    new_head_of (c, 0) Dir.up = (c, GRID_SIZE - 1) ∧
    new_head_of (GRID_SIZE - 1, r) Dir.right = (0, r) := by
  unfold GRID_SIZE at *
  refine ⟨?_, ?_, ?_⟩ <;>
    [cases d <;> skip; skip; skip] <;>
    · simp only [new_head_of, lookup, wrap_high, wrap_low, GRID_SIZE,
        Prod.mk.injEq]
      split_ifs <;> omega

/-- Witness for `snake_wraparound` at head `(5, 0)` moving up. -/
theorem snake_wraparound_witness :
    (new_head_of ((5 : Int), (0 : Int)) Dir.up =
      ((if (lookup ((5 : Int), (0 : Int)) Dir.up).1 < 0 then GRID_SIZE - 1
        else if GRID_SIZE ≤ (lookup ((5 : Int), (0 : Int)) Dir.up).1 then 0
        else (lookup ((5 : Int), (0 : Int)) Dir.up).1),
       (if (lookup ((5 : Int), (0 : Int)) Dir.up).2 < 0 then GRID_SIZE - 1
        else if GRID_SIZE ≤ (lookup ((5 : Int), (0 : Int)) Dir.up).2 then 0
        else (lookup ((5 : Int), (0 : Int)) Dir.up).2))) ∧
    new_head_of ((5 : Int), (0 : Int)) Dir.up = ((5 : Int), GRID_SIZE - 1) ∧
    new_head_of (GRID_SIZE - 1, (0 : Int)) Dir.right = (0, (0 : Int)) :=
  snake_wraparound 5 0 Dir.up (by decide) (by decide) (by decide) (by decide)

/-- C5 counterexample: with body `[(5,5), (5,6)]` and stored direction DOWN,
requesting UP does not leave the direction DOWN — `Snake.set_direction`
changes it to UP, because `(5,5) + delta(UP) = (5,4)` differs from the second
body segment `(5,6)`. -/
theorem snake_reverse_direction_accepted :
    set_direction [((5 : Int), (5 : Int)), ((5 : Int), (6 : Int))]
        Dir.down (Key.arrow Dir.up) = Dir.up ∧
    Dir.up ≠ Dir.down := by
  constructor
  · decide
  · decide

/-- C5 (amended): for every snake with body length > 1, `Snake.set_direction`
on an arrow key keeps the stored direction exactly when the second body
segment equals the head moved by the requested delta, and otherwise stores
the requested direction. -/
theorem snake_set_direction_contract (body : List Cell) (cur d : Dir)
    (h : 1 < body.length) :
    set_direction body cur (Key.arrow d) =
      (if body.getD 1 default = addC body.headI (delta d) then cur else d) := by
  simp [set_direction, h]

/-- Witness for `snake_set_direction_contract`: with body `[(5,5), (5,6)]`
and stored direction UP, requesting DOWN is the rejected move into the second
segment, so the stored direction stays UP. -/
theorem snake_set_direction_contract_witness :
    set_direction [((5 : Int), (5 : Int)), ((5 : Int), (6 : Int))]
        Dir.up (Key.arrow Dir.down) =
      (if ([((5 : Int), (5 : Int)), ((5 : Int), (6 : Int))] : List Cell).getD 1
            default =
          addC ([((5 : Int), (5 : Int)), ((5 : Int), (6 : Int))] :
            List Cell).headI (delta Dir.down)
       then Dir.up else Dir.down) :=
  snake_set_direction_contract _ _ _ (by decide)

/-- C2: evaluation of `Blocks.set_speed_and_size` at the failing inputs.  On
a fresh `Blocks` with bird height 35, a single call at score 45 stores speed
`5 + 45 // 3 = 20`, strictly above `BLOCK_MAX_SPEED = 17` (the guard compares
the old stored speed and the assigned value is unclamped); a single call at
score 36 stores gap size `int(35 * (6.0 - 3.6)) = 84`, strictly below the
minimum gap size `35 * 2.5 = 87.5`.  So the update is neither the claimed
`min`/`max`-clamped formula nor a function of the score alone. -/
theorem flappy_difficulty_overshoot :
    ((Blocks.init 35).set_speed_and_size 45).speed = 20 ∧
    BLOCK_MAX_SPEED < 20 ∧
    ((Blocks.init 35).set_speed_and_size 36).gap_size = 84 ∧
    (84 : ℚ) < (35 : ℚ) * GAP_MIN_MULTIPLIER := by
  refine ⟨by decide, by decide, ?_, ?_⟩
  · simp only [Blocks.set_speed_and_size, Blocks.init, GAP_START_MULTIPLIER,
      GAP_DECREASE_DENOMINATOR, GAP_MIN_MULTIPLIER, GAME_HEIGHT]
    norm_num
    rw [show (84 : ℚ) = ((84 : Int) : ℚ) by norm_num, pyInt_intCast]
  · unfold GAP_MIN_MULTIPLIER
    norm_num

/-- C3: evaluation of the snake `Game.__init__` at the failing input.  With
the snake spawned at cell `(0, 1)` and the food's first random draw `(0, 1)`,
construction succeeds and places the food on the snake's body — the claimed
invariant that the food is never inside the body fails immediately after
construction, because `Food.__init__` validates the draw against the
placeholder body `[(0, 0)]` instead of the snake's body. -/
theorem snake_food_spawns_on_snake :
    SnakeGame.init ((0 : Int), (1 : Int)) [((0 : Int), (1 : Int))] =
      some { body := [((0 : Int), (1 : Int))], direction := Dir.up,
             food := ((0 : Int), (1 : Int)), score := 0, high_score := 0,
             game_over := false } ∧
    ((0 : Int), (1 : Int)) ∈ [((0 : Int), (1 : Int))] := by
  refine ⟨by decide, by decide⟩

/-- C1 counterexample: a bird whose top edge sticks out above the screen
(`y = 490`, height 35, so the rectangle reaches `y = 525 > GAME_HEIGHT`) is
not fully inside the playfield, yet `Game.detect_collision` leaves the
terminal flag clear, because `shapely`'s `intersects` with the playfield is
still true for a partially-outside bird. -/
theorem flappy_partial_offscreen_not_flagged :
    ¬ specFullyInside
        (Bird.get_polygon { width := 50, height := 35, x := 160, y := 490 })
        game_polygon ∧
    (FlappyGame.detect_collision
        { bird := { width := 50, height := 35, x := 160, y := 490 },
          blocks := { bird_height := 35, x := 800, y1 := 232, speed := 5,
                      gap_size := 250 },
          score := 0, high_score := 0, game_over := false }).game_over
      = false := by
  constructor
  · simp only [specFullyInside, Bird.get_polygon, game_polygon, GAME_WIDTH,
      GAME_HEIGHT, not_and, not_le]
    intro _ _ _
    norm_num
  · have hcond :
        ((!(rectIntersects
            (Bird.get_polygon { width := 50, height := 35, x := 160, y := 490 })
            game_polygon)) ||
         rectIntersects
            (Bird.get_polygon { width := 50, height := 35, x := 160, y := 490 })
            (Blocks.get_polygon_bottom
              { bird_height := 35, x := 800, y1 := 232, speed := 5,
                gap_size := 250 }) ||
         rectIntersects
            (Bird.get_polygon { width := 50, height := 35, x := 160, y := 490 })
            (Blocks.get_polygon_top
              { bird_height := 35, x := 800, y1 := 232, speed := 5,
                gap_size := 250 })) = false := by
      simp only [rectIntersects, Bird.get_polygon, Blocks.get_polygon_bottom,
        Blocks.get_polygon_top, game_polygon, GAME_WIDTH, GAME_HEIGHT,
        BLOCK_WIDTH, Bool.or_eq_false_iff, Bool.not_eq_false',
        Bool.and_eq_true, Bool.and_eq_false_iff, decide_eq_true_eq,
        decide_eq_false_iff_not, not_le]
      norm_num
    simp [FlappyGame.detect_collision, hcond]

/-- C1 (amended): after `Game.detect_collision` the terminal flag is set iff
it was already set, or the bird rectangle is disjoint from the closed
playfield rectangle (a bird only partially outside does not trigger it), or
the closed bird rectangle intersects the closed bottom-block or top-block
rectangle (edge contact included, overlap area 0 suffices). -/
theorem flappy_detect_collision_semantics (g : FlappyGame) :
    (FlappyGame.detect_collision g).game_over =
      (g.game_over ||
       (!(rectIntersects g.bird.get_polygon game_polygon)) ||
       rectIntersects g.bird.get_polygon g.blocks.get_polygon_bottom ||
       rectIntersects g.bird.get_polygon g.blocks.get_polygon_top) := by
  unfold FlappyGame.detect_collision
  cases hgo : g.game_over <;>
    cases h1 : rectIntersects g.bird.get_polygon game_polygon <;>
    cases h2 : rectIntersects g.bird.get_polygon g.blocks.get_polygon_bottom <;>
    cases h3 : rectIntersects g.bird.get_polygon g.blocks.get_polygon_top <;>
    simp_all

/-- C4: `Snake.update_location` raises `GameOver` exactly when, after the
head push and food/tail handling, the new head appears at an index ≥ 1 of
the body; `Game.update` turns exactly that signal into the terminal flag;
and the body `[(5,5), (5,6), (5,7)]` moving DOWN (new head `(5,6)`) raises
it. -/
theorem snake_self_collision_iff :
    (∀ (cands body : List Cell) (d : Dir) (food : Cell), body ≠ [] →
      ((update_location cands body d food).gameOver = true ↔
        new_head_of body.headI d ∈
          (update_location cands body d food).body.drop 1)) ∧
    (∀ (cands : List Cell) (g g' : SnakeGame),
      SnakeGame.update cands g = some g' →
      g'.game_over =
        (g.game_over ||
         (update_location cands g.body g.direction g.food).gameOver)) ∧
    (update_location []
        [((5 : Int), (5 : Int)), ((5 : Int), (6 : Int)), ((5 : Int), (7 : Int))]
        Dir.down ((0 : Int), (0 : Int))).gameOver = true := by
  refine ⟨?_, ?_, by decide⟩
  · intro cands body d food _
    simp [update_location]
  · intro cands g g' h
    simp only [SnakeGame.update, Option.map_eq_some'] at h
    obtain ⟨f, hf, hfn⟩ := h
    by_cases hgo :
        (update_location cands g.body g.direction g.food).gameOver = true
    · rw [if_pos hgo] at hfn
      subst hfn
      simp [hgo]
    · rw [if_neg hgo] at hfn
      subst hfn
      simp only [Bool.not_eq_true] at hgo
      simp [hgo]

/-- Witness for `snake_self_collision_iff`, at the body
`[(5,5), (5,6), (5,7)]` moving DOWN with the food elsewhere. -/
theorem snake_self_collision_iff_witness :
    (update_location [] [((5 : Int), (5 : Int)), ((5 : Int), (6 : Int)),
        ((5 : Int), (7 : Int))] Dir.down ((0 : Int), (0 : Int))).gameOver
      = true ↔
      new_head_of ([((5 : Int), (5 : Int)), ((5 : Int), (6 : Int)),
          ((5 : Int), (7 : Int))] : List Cell).headI Dir.down ∈
        (update_location [] [((5 : Int), (5 : Int)), ((5 : Int), (6 : Int)),
          ((5 : Int), (7 : Int))] Dir.down
          ((0 : Int), (0 : Int))).body.drop 1 :=
  snake_self_collision_iff.1 [] _ Dir.down _ (by decide)

/-- C6: on a tick that does not end the round, the body grows by one cell
when the new head lands on the food (no tail pop, and any relocated food is
outside the new body) and keeps its length otherwise (tail popped, food
unchanged). -/
theorem snake_growth_invariant (cands body : List Cell) (d : Dir)
    (food : Cell) (h₁ : body ≠ [])
    (h₂ : (update_location cands body d food).gameOver = false) :
    (new_head_of body.headI d = food →
      (update_location cands body d food).body.length = body.length + 1 ∧
      (update_location cands body d food).food.all
        (fun f => decide (f ∉ (update_location cands body d food).body)) =
          true) ∧
    (new_head_of body.headI d ≠ food →
      (update_location cands body d food).body.length = body.length ∧
      (update_location cands body d food).food = some food) := by
  constructor
  · intro hate
    simp only [update_location, hate, if_pos]
    refine ⟨by simp, ?_⟩
    rcases hfind : set_location cands (food :: body) with _ | f
    · simp
    · have hp := List.find?_some hfind
      simp only [decide_eq_true_eq, List.mem_cons, not_or] at hp
      simp [hfind, hp.1, hp.2]
  · intro hne
    simp [update_location, hne]

/-- Witness for `snake_growth_invariant`: the length-1 snake at `(5,5)`
moving up onto the food at `(5,4)` grows to length 2 and the food is redrawn
at `(7,7)`, off the body. -/
theorem snake_growth_invariant_witness :
    (new_head_of ([((5 : Int), (5 : Int))] : List Cell).headI Dir.up =
        ((5 : Int), (4 : Int)) →
      (update_location [((7 : Int), (7 : Int))] [((5 : Int), (5 : Int))]
          Dir.up ((5 : Int), (4 : Int))).body.length =
        ([((5 : Int), (5 : Int))] : List Cell).length + 1 ∧
      (update_location [((7 : Int), (7 : Int))] [((5 : Int), (5 : Int))]
          Dir.up ((5 : Int), (4 : Int))).food.all
        (fun f => decide (f ∉
          (update_location [((7 : Int), (7 : Int))] [((5 : Int), (5 : Int))]
            Dir.up ((5 : Int), (4 : Int))).body)) = true) ∧
    (new_head_of ([((5 : Int), (5 : Int))] : List Cell).headI Dir.up ≠
        ((5 : Int), (4 : Int)) →
      (update_location [((7 : Int), (7 : Int))] [((5 : Int), (5 : Int))]
          Dir.up ((5 : Int), (4 : Int))).body.length =
        ([((5 : Int), (5 : Int))] : List Cell).length ∧
      (update_location [((7 : Int), (7 : Int))] [((5 : Int), (5 : Int))]
          Dir.up ((5 : Int), (4 : Int))).food =
        some ((5 : Int), (4 : Int))) :=
  snake_growth_invariant [((7 : Int), (7 : Int))] [((5 : Int), (5 : Int))]
    Dir.up ((5 : Int), (4 : Int)) (by decide) (by decide)

/-- C8: restart (in both games) zeroes the score, clears the terminal flag
and re-creates the entities while leaving the high score unchanged; each
score update sets `high_score = max(high_score, score)`; the high score
never decreases across a tick or a restart, and restarting with a high score
of at least 10 keeps it at least 10 while the score returns to 0. -/
theorem high_score_persistence :
    (∀ (c : Cell) (cs : List Cell) (g g' : SnakeGame),
      SnakeGame.restart c cs g = some g' →
      g'.score = 0 ∧ g'.game_over = false ∧ g'.high_score = g.high_score ∧
      g'.body = [c] ∧ g'.direction = Dir.up) ∧
    (∀ (w h : Int) (g : FlappyGame),
      (FlappyGame.restart w h g).score = 0 ∧
      (FlappyGame.restart w h g).game_over = false ∧
      (FlappyGame.restart w h g).high_score = g.high_score ∧
      (FlappyGame.restart w h g).bird = Bird.init w h ∧
      (FlappyGame.restart w h g).blocks = Blocks.init h) ∧
    (∀ g : FlappyGame,
      (FlappyGame.update_score g).high_score =
        max g.high_score (FlappyGame.update_score g).score ∧
      g.high_score ≤ (FlappyGame.update_score g).high_score) ∧
    (∀ (cs : List Cell) (g g' : SnakeGame),
      SnakeGame.update cs g = some g' →
      g.high_score ≤ g'.high_score ∧
      (g'.game_over = false → g'.high_score = max g'.score g.high_score)) ∧
    (∀ (c : Cell) (cs : List Cell) (g g' : SnakeGame),
      10 ≤ g.high_score → SnakeGame.restart c cs g = some g' →
      10 ≤ g'.high_score ∧ g'.score = 0) := by
  have hrestart : ∀ (c : Cell) (cs : List Cell) (g g' : SnakeGame),
      SnakeGame.restart c cs g = some g' →
      g'.score = 0 ∧ g'.game_over = false ∧ g'.high_score = g.high_score ∧
      g'.body = [c] ∧ g'.direction = Dir.up := by
    intro c cs g g' h
    simp only [SnakeGame.restart, Option.map_eq_some'] at h
    obtain ⟨f, _, hfn⟩ := h
    subst hfn
    simp
  refine ⟨hrestart, ?_, ?_, ?_, ?_⟩
  · intro w h g
    simp [FlappyGame.restart]
  · intro g
    unfold FlappyGame.update_score
    split <;> simp <;> omega
  · intro cs g g' h
    simp only [SnakeGame.update, Option.map_eq_some'] at h
    obtain ⟨f, _, hfn⟩ := h
    by_cases hgo :
        (update_location cs g.body g.direction g.food).gameOver = true
    · rw [if_pos hgo] at hfn
      subst hfn
      simp
    · rw [if_neg hgo] at hfn
      subst hfn
      constructor
      · simp only [SnakeGame.high_score]
        omega
      · intro _
        simp [max_comm]
  · intro c cs g g' h10 h
    rcases hrestart c cs g g' h with ⟨hs, _, hh, _⟩
    omega

/-- Witness for `high_score_persistence`: restarting a finished snake round
with score 10 and high score 10 gives score 0 and keeps high score 10. -/
theorem high_score_persistence_witness :
    (10 : Int) ≤
      ({ body := [((1 : Int), (1 : Int))], direction := Dir.up,
         food := ((4 : Int), (4 : Int)), score := 0, high_score := 10,
         game_over := false } : SnakeGame).high_score ∧
    ({ body := [((1 : Int), (1 : Int))], direction := Dir.up,
       food := ((4 : Int), (4 : Int)), score := 0, high_score := 10,
       game_over := false } : SnakeGame).score = 0 :=
  high_score_persistence.2.2.2.2 ((1 : Int), (1 : Int))
    [((4 : Int), (4 : Int))]
    { body := [((2 : Int), (2 : Int)), ((2 : Int), (3 : Int))],
      direction := Dir.up, food := ((3 : Int), (3 : Int)), score := 10,
      high_score := 10, game_over := true }
    { body := [((1 : Int), (1 : Int))], direction := Dir.up,
      food := ((4 : Int), (4 : Int)), score := 0, high_score := 10,
      game_over := false }
    (by decide) (by decide)
